import Mathlib

/-!
Shallow embedding of the course-cover generation scripts
(`scripts/generate_cover.py`, `scripts/fetch_and_generate_covers.py`,
`scripts/batch_generate_covers.py`).  External effects (HTTP responses,
randomness, the filesystem, timestamps) are passed in explicitly as
environment parameters; the functions below mirror the Python control flow.
-/

namespace CourseCover

/-- Course metadata as returned by the catalog API
(`response.json()["course"]` with fields `name`, `type`, `langs`). -/
structure CourseInfo where
  name : String
  typeId : Nat
  langs : List String
deriving Repr, DecidableEq

/-- One response of the catalog API for `GET /courses/{alias}?lang={lang}`:
a successful JSON course object, an HTTP error with a status code
(raised by `raise_for_status`), or any other exception from the request. -/
inductive ApiResponse where
  | ok (name : String) (typeId : Nat) (langs : List String)
  | httpError (status : Nat)
  | otherError (msg : String)
deriving Repr, DecidableEq

/-- `get_course_info` in `generate_cover.py`, classifying a single catalog
response: 404 yields `(None, False)` (course absent), a successful response
yields the course info together with whether `lang ∈ langs`, and every other
error is re-raised (modelled as `Except.error`). -/
def get_course_info (resp : ApiResponse) (lang : String) :
    Except String (Option CourseInfo × Bool) :=
  match resp with
  | .ok name typeId langs =>
      if lang ∈ langs then .ok (some ⟨name, typeId, langs⟩, true)
      else .ok (some ⟨name, typeId, langs⟩, false)
  | .httpError status =>
      if status = 404 then .ok (none, false)
      else .error ("HTTP error: " ++ toString status)
  | .otherError msg => .error msg

/-- `get_course_info` issues exactly one request: the wrapper consumes the
first response of the request oracle and reports the number of requests
performed (the Python function body contains a single `requests.get`). -/
def get_course_info_requests (req : Nat → ApiResponse) (lang : String) :
    Except String (Option CourseInfo × Bool) × Nat :=
  (get_course_info (req 0) lang, 1)

/-- `get_course_type`: `{0: "normal", 1: "alibaba", 3: "project"}.get(id, "normal")`. -/
def get_course_type (typeId : Nat) : String :=
  if typeId = 0 then "normal"
  else if typeId = 1 then "alibaba"
  else if typeId = 3 then "project"
  else "normal"

/-- One icon entry of the Freepik response: `style.name` and
`thumbnails[0].url`. -/
structure IconItem where
  styleName : String
  thumbUrl : String
deriving Repr, DecidableEq

/-- Behaviour of one attempt of the Freepik request: either the whole `try`
body raises, or the API responds with a `data` list. -/
inductive AttemptResult where
  | raises (msg : String)
  | returns (data : List IconItem)
deriving Repr, DecidableEq

/-- Default icon returned when the API responded but the `data` list was
empty. -/
def defaultEmptyIcon : String :=
  "https://cdn.jsdelivr.net/gh/labex-labs/course-cover/default.png"

/-- Default icon returned after all retry attempts raised. -/
def defaultExhaustedIcon : String :=
  "https://cdn.jsdelivr.net/gh/labex-labs/course-cover/labex-icon-blue.png"

/-- `"lineal color" in name.lower()` (substring test via `splitOn`). -/
def hasLinealColor (name : String) : Bool :=
  (name.toLower.splitOn "lineal color").length ≥ 2

/-- The `try` body of one Freepik attempt: `none` when it raises, otherwise
the returned URL — the empty-`data` default, or a pseudo-random choice from
the lineal-color subset when non-empty, else from the full list (`rand`
models `random.choice`). -/
def attemptValue (res : AttemptResult) (rand : Nat) : Option String :=
  match res with
  | .raises _ => none
  | .returns [] => some defaultEmptyIcon
  | .returns (d :: ds) =>
      let lineal := (d :: ds).filter (fun it => hasLinealColor it.styleName)
      let imageList := if lineal.isEmpty then d :: ds else lineal
      some (imageList.getD (rand % imageList.length) d).thumbUrl

/-- The retry loop of `get_freepik_image`: `attempt` is the loop index,
`fuel` the remaining iterations of `range(max_retries)`, `delay` the current
`retry_delay`.  Returns the URL, the number of attempts performed, and the
list of sleeps executed (a sleep of `delay` happens only when
`attempt < max_retries - 1`, i.e. when `fuel > 1`). -/
def freepikGo (attempts : Nat → AttemptResult) (rand : Nat) :
    Nat → Nat → Nat → String × Nat × List Nat
  | _, 0, _ => (defaultExhaustedIcon, 0, [])
  | attempt, 1, _ =>
      match attemptValue (attempts attempt) rand with
      | some url => (url, 1, [])
      | none => (defaultExhaustedIcon, 1, [])
  | attempt, fuel + 2, delay =>
      match attemptValue (attempts attempt) rand with
      | some url => (url, 1, [])
      | none =>
          let r := freepikGo attempts rand (attempt + 1) (fuel + 1) (delay * 2)
          (r.1, r.2.1 + 1, delay :: r.2.2)

/-- `get_freepik_image`: a missing `FREEPIK_API_KEY` raises immediately
(before any attempt); otherwise the 3-attempt loop runs with initial delay 1. -/
def get_freepik_image (apiKey : Option String) (attempts : Nat → AttemptResult)
    (rand : Nat) : Except String (String × Nat × List Nat) :=
  match apiKey with
  | none => .error "未设置 FREEPIK_API_KEY 环境变量"
  | some _ => .ok (freepikGo attempts rand 0 3 1)

/-- `url.split(".")`, performed on the character list (the separator is the
single character `.`). -/
def splitDots : List Char → List (List Char)
  | [] => [[]]
  | ch :: rest =>
      let r := splitDots rest
      if ch = Char.ofNat 46 then [] :: r
      else
        match r with
        | [] => [[ch]]
        | g :: gs => (ch :: g) :: gs

/-- Extension computed in `download_image`:
`url.split(".")[-1].lower()`, defaulted to `"png"` outside
`{png, jpg, jpeg}`. -/
def extOf (url : String) : String :=
  let e := String.mk (((splitDots url.data).getLastD []).map Char.toLower)
  if e = "png" ∨ e = "jpg" ∨ e = "jpeg" then e else "png"

/-- Behaviour of one streamed download attempt in `download_image`'s `try`
body: full success; a raise before `open("wb")` (the `requests.get` or
`raise_for_status` line), which creates no file; or a raise after the file
was opened (during `iter_content`/`f.write`), which leaves a partial file on
disk because the `except` only logs and returns. -/
inductive DownloadBehavior where
  | success
  | failEarly
  | failMidStream
deriving Repr, DecidableEq

/-- `download_image`: `icons` is the set of filenames already present under
`assets/icons`, `b` how the streamed download would go.  Returns the value
handed back to the caller, the new filename set, and whether a network
request was attempted.  An existing file short-circuits the network; a
failed download returns the original URL unchanged (the exception is
swallowed), but a mid-stream failure still persists the (partial) file it
had already opened. -/
def download_image (b : DownloadBehavior) (icons : List String)
    (url courseAlias : String) : String × List String × Bool :=
  let filename := courseAlias ++ "." ++ extOf url
  if filename ∈ icons then
    ("./assets/icons/" ++ filename, icons, false)
  else
    match b with
    | .success => ("./assets/icons/" ++ filename, filename :: icons, true)
    | .failEarly => (url, icons, true)
    | .failMidStream => (url, filename :: icons, true)

/-- A persisted visual configuration (`course-covers.json` value):
`image_url`, `bg_color`, `created_at`, and `remote_url` (present only when
the image came from Freepik rather than a local path). -/
structure VisualConfig where
  image_url : String
  bg_color : String
  created_at : String
  remote_url : Option String
deriving Repr, DecidableEq

/-- `load_course_config`: `config.get(course_alias)` over the persisted
document, modelled as an association list. -/
def storeGet (store : List (String × VisualConfig)) (courseAlias : String) :
    Option VisualConfig :=
  match store.find? (fun p => p.1 == courseAlias) with
  | some p => some p.2
  | none => none

/-- `save_course_config`: `existing_config[course_alias] = config` followed
by a full rewrite of the document. -/
def storeSet (store : List (String × VisualConfig)) (courseAlias : String)
    (cfg : VisualConfig) : List (String × VisualConfig) :=
  (courseAlias, cfg) :: store.filter (fun p => !(p.1 == courseAlias))

/-- The backtick character removed from course names before rendering. -/
def backtickStr : String := (Char.ofNat 96).toString

/-- `course_info["name"].replace` dropping backticks. -/
def sanitizeName (s : String) : String := s.replace backtickStr ""

/-- The mutable world that `generate_cover` reads and writes: the rendered
cover files (`public/{lang}/{alias}.png`, as `(lang, alias)` pairs), the
function attribute `generate_cover.course_info`, the persisted config
document, and the downloaded icon files. -/
structure GCState where
  outputs : List (String × String)
  attr : Option CourseInfo
  store : List (String × VisualConfig)
  icons : List String
deriving Repr, DecidableEq

/-- Per-call external behaviour for `generate_cover`: the catalog response
(used only in single mode), the Freepik credential and per-attempt
behaviour, the `random.choice` seed, how the streamed download goes, the
random background color, the timestamp, and whether the Playwright render
succeeds. -/
structure GCEnv where
  apiResp : ApiResponse
  apiKey : Option String
  attempts : Nat → AttemptResult
  rand : Nat
  download : DownloadBehavior
  color : String
  now : String
  renderOk : Bool

/-- The parameter set assembled for the HTML template. -/
structure RenderParams where
  course_type : String
  course_name : String
  image_url : String
  bg_color : String
  lang : String
deriving Repr, DecidableEq

/-- Final stage of `generate_cover`: assemble the render parameters from the
course info and visual config, then screenshot.  A successful render writes
the output file and returns `True`; a render exception propagates. -/
def gcRender (env : GCEnv) (st : GCState) (courseAlias lang : String)
    (info : CourseInfo) (cfg : VisualConfig) :
    Except String Bool × GCState × Option RenderParams :=
  let params : RenderParams :=
    { course_type := get_course_type info.typeId
      course_name := sanitizeName info.name
      image_url := cfg.image_url
      bg_color := cfg.bg_color
      lang := lang }
  if env.renderOk then
    (.ok true, { st with outputs := (lang, courseAlias) :: st.outputs }, some params)
  else
    (.error "render failed", st, some params)

/-- `generate_cover` after the course info is in hand: skip unsupported
languages (returning `True`), then reuse the cached `VisualConfig` when
present; when absent, resolve a Freepik image (a raise propagates), download
it, build a fresh config and merge it into the store before rendering. -/
def gcAfterInfo (env : GCEnv) (st : GCState) (courseAlias lang : String)
    (info : CourseInfo) (supported : Bool) :
    Except String Bool × GCState × Option RenderParams :=
  if !supported then
    (.ok true, st, none)
  else
    match storeGet st.store courseAlias with
    | some cfg => gcRender env st courseAlias lang info cfg
    | none =>
        match get_freepik_image env.apiKey env.attempts env.rand with
        | .error e => (.error e, st, none)
        | .ok r =>
            let freepikUrl := r.1
            let d := download_image env.download st.icons freepikUrl courseAlias
            let cfg : VisualConfig :=
              { image_url := d.1
                bg_color := env.color
                created_at := env.now
                remote_url :=
                  if !(freepikUrl.startsWith "./") then some freepikUrl else none }
            let st2 := { st with icons := d.2.1, store := storeSet st.store courseAlias cfg }
            gcRender env st2 courseAlias lang info cfg

/-- `generate_cover(course_alias, lang, overwrite)`.  First the
skip-if-exists check (before the attribute is read); then either the
pre-fetched attribute (cleared on consumption) or a fresh catalog lookup
whose 404 yields `False` and whose other errors propagate. -/
def generate_cover (env : GCEnv) (st : GCState) (courseAlias lang : String)
    (overwrite : Bool) : Except String Bool × GCState × Option RenderParams :=
  if (lang, courseAlias) ∈ st.outputs ∧ ¬overwrite then
    (.ok true, st, none)
  else
    match st.attr with
    | some info =>
        gcAfterInfo env { st with attr := none } courseAlias lang info
          (decide (lang ∈ info.langs))
    | none =>
        match get_course_info env.apiResp lang with
        | .error e => (.error e, st, none)
        | .ok (none, _) => (.ok false, st, none)
        | .ok (some info, supported) =>
            gcAfterInfo env st courseAlias lang info supported

/-- `process_course` in `fetch_and_generate_covers.py`: run one course and
wrap the result — `(result, None)` on a normal return, `(False, str(e))`
when `generate_cover` raised.  `run` is the behaviour of the
`generate_cover` call for this item. -/
def process_course (run : String → Except String Bool) (courseAlias : String) :
    Bool × Option String :=
  match run courseAlias with
  | .ok b => (b, none)
  | .error e => (false, some e)

/-- One pass of the pool over the remaining courses: the aliases whose
result was truthy (appended to `all_successful`) and the
`(alias, error)` pairs of the failed ones (`current_failed`). -/
def runPass (run : String → Except String Bool) (remaining : List String) :
    List String × List (String × Option String) :=
  (remaining.filter (fun a => (process_course run a).1),
   (remaining.filter (fun a => !(process_course run a).1)).map
     (fun a => (a, (process_course run a).2)))

/-- The `while remaining_courses and retry_count < max_retries` loop of
`process_batch`; `fuel = max_retries - retry_count`, so the fuel running out
is exactly the counter reaching `max_retries`.  `runner` gives the behaviour
of each course at each pass index; `trace` records every `(pass, alias)`
dispatch.  After a pass: successes are appended, `all_failed` is overwritten
with this pass's failures, and the failed aliases become the next
`remaining`. -/
def batchLoop (runner : Nat → String → Except String Bool) :
    Nat → Nat → List String → List String → List (String × Option String) →
    List (Nat × String) →
    List String × List (String × Option String) × List (Nat × String)
  | 0, _, _, allSucc, allFailed, trace => (allSucc, allFailed, trace)
  | _ + 1, _, [], allSucc, allFailed, trace => (allSucc, allFailed, trace)
  | fuel + 1, retryCount, a :: rest, allSucc, _allFailed, trace =>
      let p := runPass (runner retryCount) (a :: rest)
      batchLoop runner fuel (retryCount + 1) (p.2.map Prod.fst)
        (allSucc ++ p.1) p.2
        (trace ++ (a :: rest).map (fun x => (retryCount, x)))

/-- `process_batch(course_aliases, ..., max_retries)`: returns
`(all_successful, all_failed)` plus the dispatch trace. -/
def process_batch (runner : Nat → String → Except String Bool)
    (courseAliases : List String) (maxRetries : Nat) :
    List String × List (String × Option String) × List (Nat × String) :=
  batchLoop runner maxRetries 0 courseAliases [] [] []

/-- The two `continue` guards of the `batch_generate_covers.py` main loop:
project aliases under `--skip-projects`, and existing covers without
`--overwrite`. -/
def shouldSkip (skipProjects overwrite : Bool) (existing : List String)
    (courseAlias : String) : Bool :=
  (skipProjects && courseAlias.startsWith "project-") ||
    (existing.contains courseAlias && !overwrite)

/-- The accumulation of `invalid_courses` over the config document: an alias
is marked only when it was actually evaluated (not skipped), `clean_invalid`
is on, and `generate_cover` returned `False` (course not found); exceptions
hit the `except` branch and are never marked. -/
def collectInvalid (cleanInvalid skipProjects overwrite : Bool)
    (existing : List String) (outcome : String → Except String Bool) :
    List (String × VisualConfig) → List String
  | [] => []
  | (a, _) :: rest =>
      let restInv := collectInvalid cleanInvalid skipProjects overwrite existing outcome rest
      if shouldSkip skipProjects overwrite existing a then restInv
      else
        match outcome a with
        | .ok false => if cleanInvalid then a :: restInv else restInv
        | _ => restInv

/-- The `main` of `batch_generate_covers.py` restricted to its observable
effect on the config document: the set of invalid aliases collected, the
final document, and the number of document rewrites performed by the cleanup
phase (the deletions happen in memory and are persisted by one
`json.dump`). -/
def batch_generate_covers_main (cleanInvalid skipProjects overwrite : Bool)
    (existing : List String) (outcome : String → Except String Bool)
    (config : List (String × VisualConfig)) :
    List String × List (String × VisualConfig) × Nat :=
  let invalid := collectInvalid cleanInvalid skipProjects overwrite existing outcome config
  if cleanInvalid ∧ invalid ≠ [] then
    (invalid, config.filter (fun p => !(invalid.contains p.1)), 1)
  else
    (invalid, config, 0)

/-! Concrete environments and stubs used to instantiate the theorems below. -/

/-- A benign environment: the catalog knows the course, the credential is
set, the first Freepik attempt succeeds, downloads and renders succeed. -/
def okEnv : GCEnv :=
  { apiResp := .ok "Bash Basics" 0 ["en", "zh"]
    apiKey := some "key"
    attempts := fun _ => .returns [⟨"Lineal Color", "https://img.test/icon.png"⟩]
    rand := 0
    download := .success
    color := "aabbcc"
    now := "2025-01-01T00:00:00"
    renderOk := true }

/-- A stored visual config used by the cache-stability witnesses. -/
def storedCfg : VisualConfig :=
  { image_url := "./assets/icons/bash-basics.png"
    bg_color := "ddeeff"
    created_at := "2024-01-01T00:00:00"
    remote_url := some "https://img.test/old.png" }

/-- A state whose store already holds a config for `bash-basics`. -/
def cachedState : GCState :=
  { outputs := [], attr := none, store := [("bash-basics", storedCfg)], icons := [] }

/-- An empty-world state: no covers, no attribute, empty store, no icons. -/
def emptyState : GCState :=
  { outputs := [], attr := none, store := [], icons := [] }

/-- The environment of the missing-credential scenario: everything healthy
except that `FREEPIK_API_KEY` is unset. -/
def noKeyEnv : GCEnv :=
  { okEnv with apiKey := none }

/-- The per-item behaviour of `process_course`'s `generate_cover` call when
the credential is missing and nothing is cached: every pass hits the
configuration error. -/
def noKeyRunner (_pass : Nat) (courseAlias : String) : Except String Bool :=
  (generate_cover noKeyEnv emptyState courseAlias "en" false).1

/-- The environment of a course the catalog does not know (404). -/
def notFoundEnv : GCEnv :=
  { okEnv with apiResp := .httpError 404 }

/-- Per-item behaviour producing the course-not-found outcome
(`generate_cover` returning `False`) at every pass. -/
def notFoundRunner (_pass : Nat) (courseAlias : String) : Except String Bool :=
  (generate_cover notFoundEnv emptyState courseAlias "en" false).1

/-- A work item that fails transiently on passes 0 and 1 and succeeds on
pass 2 — the retry-bound stub of the spec. -/
def flakyRunner (pass : Nat) (_courseAlias : String) : Except String Bool :=
  if pass = 0 then .error "network error 0"
  else if pass = 1 then .error "network error 1"
  else .ok true

/-- A runner that succeeds immediately. -/
def promptRunner (_pass : Nat) (_courseAlias : String) : Except String Bool :=
  .ok true

/-- A Freepik stub that always responds with an empty `data` list. -/
def emptyDataAttempts (_i : Nat) : AttemptResult := .returns []

/-- A Freepik stub whose every attempt raises. -/
def raisingAttempts (i : Nat) : AttemptResult := .raises ("boom " ++ toString i)

/-- The config document of the cleanup-safety witness: one course the
catalog lost and one that fails transiently. -/
def cleanupConfig : List (String × VisualConfig) :=
  [("ghost-course", storedCfg), ("flaky-course", storedCfg)]

/-- Outcomes of the cleanup-safety witness: `ghost-course` is not found
(returns `False`), `flaky-course` raises a transient error. -/
def cleanupOutcome (courseAlias : String) : Except String Bool :=
  if courseAlias = "ghost-course" then .ok false
  else if courseAlias = "flaky-course" then .error "connection reset"
  else .ok true

/-- A state carrying a pre-fetched attribute and an already-rendered cover,
used by the stale-metadata witnesses. -/
def leakState : GCState :=
  { outputs := [("en", "bash-basics")]
    attr := some ⟨"Bash Basics", 0, ["en", "zh"]⟩
    store := [("other-course", storedCfg)]
    icons := [] }

/-! ### Theorems -/

/-- The render stage never touches the config store. -/
theorem gcRender_store (env : GCEnv) (st : GCState) (courseAlias lang : String)
    (info : CourseInfo) (cfg : VisualConfig) :
    (gcRender env st courseAlias lang info cfg).2.1.store = st.store := by
  unfold gcRender
  split <;> rfl

/-- The render stage never touches the attribute. -/
theorem gcRender_attr (env : GCEnv) (st : GCState) (courseAlias lang : String)
    (info : CourseInfo) (cfg : VisualConfig) :
    (gcRender env st courseAlias lang info cfg).2.1.attr = st.attr := by
  unfold gcRender
  split <;> rfl

/-- The render stage returns either `True` or an exception, never `False`. -/
theorem gcRender_fst_ne_false (env : GCEnv) (st : GCState)
    (courseAlias lang : String) (info : CourseInfo) (cfg : VisualConfig) :
    (gcRender env st courseAlias lang info cfg).1 ≠ .ok false := by
  unfold gcRender
  split <;> simp

/-- Once the course info is in hand, `generate_cover` can no longer return
`False`: every remaining path returns `True` or raises. -/
theorem gcAfterInfo_fst_ne_false (env : GCEnv) (st : GCState)
    (courseAlias lang : String) (info : CourseInfo) (supported : Bool) :
    (gcAfterInfo env st courseAlias lang info supported).1 ≠ .ok false := by
  unfold gcAfterInfo
  split
  · simp
  · split
    · exact gcRender_fst_ne_false _ _ _ _ _ _
    · split
      · simp
      · exact gcRender_fst_ne_false _ _ _ _ _ _

/-- C1: the batch orchestrator loops while the pending set is non-empty and
the retry counter is below `max_retries`; an item failing transiently on
passes 0 and 1 and succeeding on pass 2 lands in the success set with
`max_retries = 3` and in the failure list with `max_retries = 2`; the
returned failure list is the last executed pass's failures (it carries the
pass-1 error, not the pass-0 one); and the loop stops after the first pass
once pending is empty, even with retries to spare. -/
theorem c1_batch_retry_bound (a : String)
    (runner quick : Nat → String → Except String Bool) (e0 e1 : String)
    (h0 : runner 0 a = .error e0) (h1 : runner 1 a = .error e1)
    (h2 : runner 2 a = .ok true) (hq : quick 0 a = .ok true) :
    process_batch runner [a] 3 = ([a], [], [(0, a), (1, a), (2, a)]) ∧
    process_batch runner [a] 2 = ([], [(a, some e1)], [(0, a), (1, a)]) ∧
    process_batch quick [a] 5 = ([a], [], [(0, a)]) := by
  refine ⟨?_, ?_, ?_⟩ <;>
    simp [process_batch, batchLoop, runPass, process_course, h0, h1, h2, hq]

/-- Witness for C1 at the concrete flaky and prompt runners. -/
theorem c1_batch_retry_bound_witness :
    process_batch flakyRunner ["c"] 3 = (["c"], [], [(0, "c"), (1, "c"), (2, "c")]) ∧
    process_batch flakyRunner ["c"] 2 =
      ([], [("c", some "network error 1")], [(0, "c"), (1, "c")]) ∧
    process_batch promptRunner ["c"] 5 = (["c"], [], [(0, "c")]) :=
  c1_batch_retry_bound "c" flakyRunner promptRunner "network error 0" "network error 1"
    rfl rfl rfl rfl

/-- C2 counterexample: a work item whose outcome in a batch pass is the
course-not-found absence (`generate_cover` returning `False`, here from a
404 catalog response) is classified as a failure and re-dispatched on the
next pass — the orchestrator does retry this terminal absence. -/
theorem c2_absence_counterexample :
    (generate_cover notFoundEnv emptyState "ghost-course" "en" false).1 = .ok false ∧
    process_batch notFoundRunner ["ghost-course"] 2 =
      ([], [("ghost-course", none)], [(0, "ghost-course"), (1, "ghost-course")]) := by
  exact ⟨rfl, rfl⟩

/-- C2 (amended): a work item whose outcome is the language-unsupported
absence is classified as success and never re-dispatched, but a
course-not-found outcome is classified as failure and re-dispatched on every
pass until retries are exhausted; in this orchestrator the not-found outcome
is unreachable anyway, because with pre-fetched metadata installed in the
attribute `generate_cover` never returns `False`. -/
theorem c2_absence_amended (a : String)
    (uRunner nRunner : Nat → String → Except String Bool)
    (hu : ∀ k, uRunner k a = .ok true) (hn : ∀ k, nRunner k a = .ok false) :
    process_batch uRunner [a] 3 = ([a], [], [(0, a)]) ∧
    process_batch nRunner [a] 3 = ([], [(a, none)], [(0, a), (1, a), (2, a)]) ∧
    (∀ (env : GCEnv) (st : GCState) (info : CourseInfo) (lang : String) (ow : Bool),
        st.attr = some info → (generate_cover env st a lang ow).1 ≠ .ok false) := by
  refine ⟨?_, ?_, ?_⟩
  · simp [process_batch, batchLoop, runPass, process_course, hu 0]
  · simp [process_batch, batchLoop, runPass, process_course, hn 0, hn 1, hn 2]
  · intro env st info lang ow hattr
    unfold generate_cover
    split
    · simp
    · rw [hattr]
      exact gcAfterInfo_fst_ne_false env { st with attr := none } a lang info
        (decide (lang ∈ info.langs))

/-- Witness for C2 (amended) at concrete runners modelling the two absence
outcomes. -/
theorem c2_absence_amended_witness :
    process_batch (fun _ _ => Except.ok true) ["c"] 3 = (["c"], [], [(0, "c")]) ∧
    process_batch (fun _ _ => Except.ok false) ["c"] 3 =
      ([], [("c", none)], [(0, "c"), (1, "c"), (2, "c")]) ∧
    (∀ (env : GCEnv) (st : GCState) (info : CourseInfo) (lang : String) (ow : Bool),
        st.attr = some info → (generate_cover env st "c" lang ow).1 ≠ .ok false) :=
  c2_absence_amended "c" (fun _ _ => .ok true) (fun _ _ => .ok false)
    (fun _ => rfl) (fun _ => rfl)

/-- C3: with the credential set, an icon search whose API responds with an
empty result list yields the empty-result default reference; one whose every
attempt raises yields the distinct exhausted-retry default; and in both
cases the resolver returns a value instead of propagating an error. -/
theorem c3_resolver_fallback_distinction (apiKeyVal : String)
    (aEmpty aRaise : Nat → AttemptResult) (rand1 rand2 : Nat)
    (hEmpty : ∀ i, aEmpty i = .returns [])
    (hRaise : ∀ i, ∃ m, aRaise i = .raises m) :
    get_freepik_image (some apiKeyVal) aEmpty rand1 = .ok (defaultEmptyIcon, 1, []) ∧
    get_freepik_image (some apiKeyVal) aRaise rand2 = .ok (defaultExhaustedIcon, 3, [1, 2]) ∧
    defaultEmptyIcon ≠ defaultExhaustedIcon := by
  obtain ⟨m0, g0⟩ := hRaise 0
  obtain ⟨m1, g1⟩ := hRaise 1
  obtain ⟨m2, g2⟩ := hRaise 2
  refine ⟨?_, ?_, by decide⟩
  · simp [get_freepik_image, freepikGo, attemptValue, hEmpty 0]
  · simp [get_freepik_image, freepikGo, attemptValue, g0, g1, g2]

/-- Witness for C3 at the concrete empty-data and always-raising stubs. -/
theorem c3_resolver_fallback_distinction_witness :
    get_freepik_image (some "key") emptyDataAttempts 0 = .ok (defaultEmptyIcon, 1, []) ∧
    get_freepik_image (some "key") raisingAttempts 7 = .ok (defaultExhaustedIcon, 3, [1, 2]) ∧
    defaultEmptyIcon ≠ defaultExhaustedIcon :=
  c3_resolver_fallback_distinction "key" emptyDataAttempts raisingAttempts 0 7
    (fun _ => rfl) (fun i => ⟨"boom " ++ toString i, rfl⟩)

/-- C9: the resolver makes between 1 and 3 attempts, the sleeps executed are
exactly the prefix `[1, 2].take (attempts - 1)` of the doubling backoff
schedule (so delays 1 then 2, and no sleep after the final attempt), and a
set credential always produces a returned value after those attempts. -/
theorem c9_resolver_retry_schedule (apiKeyVal : String)
    (attempts : Nat → AttemptResult) (rand : Nat) :
    get_freepik_image (some apiKeyVal) attempts rand =
      .ok (freepikGo attempts rand 0 3 1) ∧
    1 ≤ (freepikGo attempts rand 0 3 1).2.1 ∧
    (freepikGo attempts rand 0 3 1).2.1 ≤ 3 ∧
    (freepikGo attempts rand 0 3 1).2.2 =
      [1, 2].take ((freepikGo attempts rand 0 3 1).2.1 - 1) := by
  refine ⟨rfl, ?_⟩
  rcases h0 : attemptValue (attempts 0) rand with _ | u0
  · rcases h1 : attemptValue (attempts 1) rand with _ | u1
    · rcases h2 : attemptValue (attempts 2) rand with _ | u2 <;>
        simp [freepikGo, h0, h1, h2]
    · simp [freepikGo, h0, h1]
  · simp [freepikGo, h0]

/-- C7 counterexample: with the credential absent, batch work still begins —
the lone work item is dispatched on all three passes, fails each time with
the configuration error, and ends in the failure list; the batch is not
aborted before any work item is processed. -/
theorem c7_fatal_config_counterexample :
    noKeyEnv.apiKey = none ∧
    process_batch noKeyRunner ["bash-basics"] 3 =
      ([], [("bash-basics", some "未设置 FREEPIK_API_KEY 环境变量")],
        [(0, "bash-basics"), (1, "bash-basics"), (2, "bash-basics")]) := by
  exact ⟨rfl, rfl⟩

/-- C7 (amended): a missing credential is raised immediately inside the
resolver, before and independently of any search attempt (so it is never
retried there), but it does not abort the batch: the orchestrator catches it
per work item, so items are still dispatched, fail with the configuration
error, and are re-dispatched on every retry pass until `max_retries` is
exhausted. -/
theorem c7_fatal_config_amended :
    (∀ (attempts : Nat → AttemptResult) (rand : Nat),
        get_freepik_image none attempts rand =
          .error "未设置 FREEPIK_API_KEY 环境变量") ∧
    process_batch noKeyRunner ["bash-basics"] 3 =
      ([], [("bash-basics", some "未设置 FREEPIK_API_KEY 环境变量")],
        [(0, "bash-basics"), (1, "bash-basics"), (2, "bash-basics")]) := by
  exact ⟨fun _ _ => rfl, rfl⟩

/-- Looking up a key other than the cons head skips the head. -/
theorem storeGet_cons_ne (s : List (String × VisualConfig)) (a k : String)
    (c : VisualConfig) (h : ¬(a = k)) :
    storeGet ((a, c) :: s) k = storeGet s k := by
  unfold storeGet
  rw [@List.find?_cons_of_neg _ (fun q => q.1 == k) (a, c) s (by simpa using h)]

/-- When a key is absent, `storeSet`'s de-duplicating filter is the
identity. -/
theorem storeFilter_of_none (s : List (String × VisualConfig)) (a : String)
    (h : storeGet s a = none) :
    s.filter (fun p => !(p.1 == a)) = s := by
  induction s with
  | nil => rfl
  | cons hd tl ih =>
    by_cases hb : (hd.1 == a) = true
    · exfalso
      have : storeGet (hd :: tl) a = some hd.2 := by
        unfold storeGet
        rw [@List.find?_cons_of_pos _ (fun q => q.1 == a) hd tl hb]
      rw [h] at this
      cases this
    · have htl : storeGet tl a = none := by
        unfold storeGet at h ⊢
        rwa [@List.find?_cons_of_neg _ (fun q => q.1 == a) hd tl (by simpa using hb)] at h
      simp [List.filter_cons, hb, ih htl]

/-- The render stage's parameter set is assembled from the course info and
the visual config handed to it. -/
theorem gcRender_params (env : GCEnv) (st : GCState) (courseAlias lang : String)
    (info : CourseInfo) (cfg : VisualConfig) (p : RenderParams)
    (hp : (gcRender env st courseAlias lang info cfg).2.2 = some p) :
    p = ⟨get_course_type info.typeId, sanitizeName info.name,
      cfg.image_url, cfg.bg_color, lang⟩ := by
  unfold gcRender at hp
  split at hp <;> cases hp <;> rfl

/-- With a cached config present, the remainder of `generate_cover` leaves
the store untouched and renders with the cached image and color. -/
theorem gcAfterInfo_store_of_some (env : GCEnv) (st : GCState)
    (courseAlias lang : String) (info : CourseInfo) (supported : Bool)
    (cfg : VisualConfig) (h : storeGet st.store courseAlias = some cfg) :
    (gcAfterInfo env st courseAlias lang info supported).2.1.store = st.store ∧
    ∀ p, (gcAfterInfo env st courseAlias lang info supported).2.2 = some p →
      p.image_url = cfg.image_url ∧ p.bg_color = cfg.bg_color := by
  unfold gcAfterInfo
  split
  · exact ⟨rfl, fun p hp => by cases hp⟩
  · rw [h]
    refine ⟨gcRender_store .., fun p hp => ?_⟩
    rw [gcRender_params env st courseAlias lang info cfg p hp]
    exact ⟨rfl, rfl⟩

/-- The post-metadata stages never overwrite an existing store entry (for
any key): only an absent key leads to a `storeSet`. -/
theorem gcAfterInfo_store_preserve (env : GCEnv) (st : GCState)
    (courseAlias lang : String) (info : CourseInfo) (supported : Bool)
    (k : String) (c : VisualConfig) (h : storeGet st.store k = some c) :
    storeGet (gcAfterInfo env st courseAlias lang info supported).2.1.store k = some c := by
  unfold gcAfterInfo
  split
  · exact h
  · split
    · rw [gcRender_store]
      exact h
    next hnone =>
      split
      · exact h
      · rw [gcRender_store]
        show storeGet (storeSet st.store courseAlias _) k = some c
        have hk : ¬(courseAlias = k) := by
          intro he
          rw [he, h] at hnone
          cases hnone
        unfold storeSet
        rw [storeGet_cons_ne _ _ _ _ hk, storeFilter_of_none _ _ hnone]
        exact h

/-- The post-metadata stages never touch the attribute. -/
theorem gcAfterInfo_attr (env : GCEnv) (st : GCState) (courseAlias lang : String)
    (info : CourseInfo) (supported : Bool) :
    (gcAfterInfo env st courseAlias lang info supported).2.1.attr = st.attr := by
  unfold gcAfterInfo
  split
  · rfl
  · split
    · rw [gcRender_attr]
    · split
      · rfl
      · rw [gcRender_attr]

/-- The post-metadata render parameters carry the (sanitized) name and type
of exactly the course info handed in. -/
theorem gcAfterInfo_params (env : GCEnv) (st : GCState) (courseAlias lang : String)
    (info : CourseInfo) (supported : Bool) (p : RenderParams)
    (hp : (gcAfterInfo env st courseAlias lang info supported).2.2 = some p) :
    p.course_name = sanitizeName info.name ∧
    p.course_type = get_course_type info.typeId := by
  unfold gcAfterInfo at hp
  split at hp
  · cases hp
  · split at hp
    · rw [gcRender_params _ _ _ _ _ _ _ hp]
      exact ⟨rfl, rfl⟩
    · split at hp
      · cases hp
      · rw [gcRender_params _ _ _ _ _ _ _ hp]
        exact ⟨rfl, rfl⟩

/-- C4: a course identifier that already has a `VisualConfig` entry in the
store keeps it unchanged through any single-item generation — the call
leaves the store identical and renders with the stored `image_url` and
`bg_color` — and more generally no existing entry of any key is ever
overwritten, so a new entry can be created only for a key absent from the
store. -/
theorem c4_visualconfig_cache_stability (env : GCEnv) (st : GCState)
    (courseAlias lang : String) (ow : Bool) :
    (∀ cfg, storeGet st.store courseAlias = some cfg →
      (generate_cover env st courseAlias lang ow).2.1.store = st.store ∧
      ∀ p, (generate_cover env st courseAlias lang ow).2.2 = some p →
        p.image_url = cfg.image_url ∧ p.bg_color = cfg.bg_color) ∧
    (∀ k c, storeGet st.store k = some c →
      storeGet (generate_cover env st courseAlias lang ow).2.1.store k = some c) := by
  constructor
  · intro cfg hcfg
    unfold generate_cover
    split
    · exact ⟨rfl, fun p hp => by cases hp⟩
    · cases hattr : st.attr with
      | some info =>
          exact gcAfterInfo_store_of_some env { st with attr := none }
            courseAlias lang info _ cfg hcfg
      | none =>
          cases hinfo : get_course_info env.apiResp lang with
          | error e => exact ⟨rfl, fun p hp => by cases hp⟩
          | ok v =>
              obtain ⟨oinfo, supported⟩ := v
              cases oinfo with
              | none => exact ⟨rfl, fun p hp => by cases hp⟩
              | some info =>
                  exact gcAfterInfo_store_of_some env st courseAlias lang
                    info supported cfg hcfg
  · intro k c hk
    unfold generate_cover
    split
    · exact hk
    · cases hattr : st.attr with
      | some info =>
          exact gcAfterInfo_store_preserve env { st with attr := none }
            courseAlias lang info _ k c hk
      | none =>
          cases hinfo : get_course_info env.apiResp lang with
          | error e => exact hk
          | ok v =>
              obtain ⟨oinfo, supported⟩ := v
              cases oinfo with
              | none => exact hk
              | some info =>
                  exact gcAfterInfo_store_preserve env st courseAlias lang
                    info supported k c hk

/-- Witness for C4: the cached `bash-basics` entry survives a generation
unchanged. -/
theorem c4_visualconfig_cache_stability_witness :
    storeGet cachedState.store "bash-basics" = some storedCfg ∧
    (generate_cover okEnv cachedState "bash-basics" "en" false).2.1.store =
      cachedState.store :=
  ⟨rfl,
    ((c4_visualconfig_cache_stability okEnv cachedState "bash-basics" "en" false).1
      storedCfg rfl).1⟩

/-- C5: a 404 catalog response yields the course-absent classification
(`(None, False)`, surfacing as the terminal `False` return of
`generate_cover`); a successful response whose language list excludes the
requested language yields the language-unsupported classification
(`(info, False)`, surfacing as the terminal `True` return, not a failure);
any other HTTP or transport error is propagated as a raise; and the
metadata client issues a single request — its result depends only on the
first response, with no retry. -/
theorem c5_metadata_classification (lang name msg : String) (typeId status : Nat)
    (langs : List String) (env : GCEnv) (st : GCState) (courseAlias : String)
    (ow : Bool) (hlang : lang ∉ langs) (hstatus : status ≠ 404)
    (hattr : st.attr = none) (hskip : (lang, courseAlias) ∉ st.outputs) :
    get_course_info (.httpError 404) lang = .ok (none, false) ∧
    get_course_info (.ok name typeId langs) lang =
      .ok (some ⟨name, typeId, langs⟩, false) ∧
    get_course_info (.httpError status) lang =
      .error ("HTTP error: " ++ toString status) ∧
    get_course_info (.otherError msg) lang = .error msg ∧
    (∀ req req2 : Nat → ApiResponse, req 0 = req2 0 →
      get_course_info_requests req lang = get_course_info_requests req2 lang) ∧
    (get_course_info_requests (fun _ => .httpError 404) lang).2 = 1 ∧
    (env.apiResp = .httpError 404 →
      (generate_cover env st courseAlias lang ow).1 = .ok false) ∧
    (env.apiResp = .ok name typeId langs →
      (generate_cover env st courseAlias lang ow).1 = .ok true) ∧
    (env.apiResp = .httpError status →
      (generate_cover env st courseAlias lang ow).1 =
        .error ("HTTP error: " ++ toString status)) := by
  refine ⟨by simp [get_course_info], by simp [get_course_info, hlang],
    by simp [get_course_info, hstatus], rfl,
    fun req req2 h0 => by simp [get_course_info_requests, h0], rfl, ?_, ?_, ?_⟩
  · intro hresp
    simp [generate_cover, hskip, hattr, hresp, get_course_info]
  · intro hresp
    simp [generate_cover, hskip, hattr, hresp, get_course_info, hlang, gcAfterInfo]
  · intro hresp
    simp [generate_cover, hskip, hattr, hresp, get_course_info, hstatus]

/-- Witness for C5: a missing course (404) and an unsupported language at
concrete inputs. -/
theorem c5_metadata_classification_witness :
    get_course_info (.httpError 404) "fr" = .ok (none, false) ∧
    get_course_info (.ok "Bash Basics" 0 ["en", "zh"]) "fr" =
      .ok (some ⟨"Bash Basics", 0, ["en", "zh"]⟩, false) ∧
    (generate_cover notFoundEnv emptyState "ghost-course" "fr" false).1 = .ok false :=
  have h := c5_metadata_classification "fr" "Bash Basics" "m" 0 500 ["en", "zh"]
    notFoundEnv emptyState "ghost-course" false (by decide) (by decide) rfl
    (by simp [emptyState])
  ⟨h.1, h.2.1, h.2.2.2.2.2.2.1 rfl⟩

/-- C8 counterexample: a download failing mid-stream (after `open("wb")`)
returns the remote URL but persists the partial file, so the immediately
following call for the same reference and course id finds the file and
returns the local path — two consecutive calls do not yield the same
value, refuting the two-calls-same-result conjunct of the claim. -/
theorem c8_download_counterexample :
    (download_image .failMidStream [] "https://a.b/x.png" "c1").1 =
      "https://a.b/x.png" ∧
    (download_image .failMidStream
        (download_image .failMidStream [] "https://a.b/x.png" "c1").2.1
        "https://a.b/x.png" "c1").1 =
      "./assets/icons/" ++ ("c1" ++ "." ++ extOf "https://a.b/x.png") ∧
    "https://a.b/x.png" ≠
      "./assets/icons/" ++ ("c1" ++ "." ++ extOf "https://a.b/x.png") := by
  refine ⟨rfl, rfl, by decide⟩

/-- C8 (amended): an existing local file is returned with no network
attempt and no state change; a successful download persists the file and
returns the local path; a failed download returns the original remote URL
unchanged and never raises, but while a failure before the file is opened
leaves the state unchanged, a mid-stream failure persists a partial file;
consequently two consecutive calls yield the same value whenever the
failure is not mid-stream, and in every case at most one new file is
persisted across the two calls. -/
theorem c8_download_fallback_amended (url courseAlias : String)
    (b : DownloadBehavior) (icons : List String) :
    (courseAlias ++ "." ++ extOf url ∈ icons →
      download_image b icons url courseAlias =
        ("./assets/icons/" ++ (courseAlias ++ "." ++ extOf url), icons, false)) ∧
    (courseAlias ++ "." ++ extOf url ∉ icons → b = .success →
      download_image b icons url courseAlias =
        ("./assets/icons/" ++ (courseAlias ++ "." ++ extOf url),
          (courseAlias ++ "." ++ extOf url) :: icons, true)) ∧
    (courseAlias ++ "." ++ extOf url ∉ icons → b = .failEarly →
      download_image b icons url courseAlias = (url, icons, true)) ∧
    (courseAlias ++ "." ++ extOf url ∉ icons → b = .failMidStream →
      download_image b icons url courseAlias =
        (url, (courseAlias ++ "." ++ extOf url) :: icons, true)) ∧
    (b ≠ .failMidStream →
      (download_image b icons url courseAlias).1 =
        (download_image b (download_image b icons url courseAlias).2.1 url courseAlias).1) ∧
    (download_image b (download_image b icons url courseAlias).2.1 url courseAlias).2.1.length
      ≤ icons.length + 1 := by
  by_cases hmem : courseAlias ++ "." ++ extOf url ∈ icons
  · refine ⟨fun _ => by simp [download_image, hmem], fun hc => absurd hmem hc,
      fun hc => absurd hmem hc, fun hc => absurd hmem hc, ?_, ?_⟩
    · intro _
      simp [download_image, hmem]
    · simp [download_image, hmem]
  · cases b
    · refine ⟨fun hc => absurd hc hmem, fun _ _ => by simp [download_image, hmem],
        fun _ hc => DownloadBehavior.noConfusion hc,
        fun _ hc => DownloadBehavior.noConfusion hc, ?_, ?_⟩
      · intro _
        simp [download_image, hmem]
      · simp [download_image, hmem]
    · refine ⟨fun hc => absurd hc hmem,
        fun _ hc => DownloadBehavior.noConfusion hc,
        fun _ _ => by simp [download_image, hmem],
        fun _ hc => DownloadBehavior.noConfusion hc, ?_, ?_⟩
      · intro _
        simp [download_image, hmem]
      · simp [download_image, hmem]
    · refine ⟨fun hc => absurd hc hmem,
        fun _ hc => DownloadBehavior.noConfusion hc,
        fun _ hc => DownloadBehavior.noConfusion hc,
        fun _ _ => by simp [download_image, hmem], fun hb => absurd rfl hb, ?_⟩
      simp [download_image, hmem]

/-- Witness for C8 (amended) at a concrete URL and course id: an existing
file is served locally, an early failure leaves no file, a mid-stream
failure leaves one. -/
theorem c8_download_fallback_amended_witness :
    download_image .success ["c1.png"] "https://a.b/x.png" "c1" =
      ("./assets/icons/" ++ ("c1" ++ "." ++ extOf "https://a.b/x.png"),
        ["c1.png"], false) ∧
    download_image .failEarly [] "https://a.b/x.png" "c1" =
      ("https://a.b/x.png", [], true) ∧
    download_image .failMidStream [] "https://a.b/x.png" "c1" =
      ("https://a.b/x.png", ["c1" ++ "." ++ extOf "https://a.b/x.png"], true) :=
  ⟨(c8_download_fallback_amended "https://a.b/x.png" "c1" .success ["c1.png"]).1
      (by decide),
    (c8_download_fallback_amended "https://a.b/x.png" "c1" .failEarly []).2.2.1
      (by decide) rfl,
    (c8_download_fallback_amended "https://a.b/x.png" "c1" .failMidStream []).2.2.2.1
      (by decide) rfl⟩

/-- C10: when the pre-fetched metadata attribute is set and the target
cover already exists with overwrite disabled, the call returns the skipped
outcome with the whole state — the attribute included — unchanged; the
attribute is consumed (cleared) only by a call that passes the
skip-if-exists check, and such a next call renders with the stale metadata
even for a different course or language. -/
theorem c10_stale_attribute_leak (env1 env2 : GCEnv) (st : GCState)
    (info : CourseInfo) (a1 l1 a2 l2 : String)
    (h1 : st.attr = some info) (h2 : (l1, a1) ∈ st.outputs)
    (h3 : (l2, a2) ∉ st.outputs) :
    generate_cover env1 st a1 l1 false = (.ok true, st, none) ∧
    (generate_cover env2 st a2 l2 false).2.1.attr = none ∧
    ∀ p, (generate_cover env2 st a2 l2 false).2.2 = some p →
      p.course_name = sanitizeName info.name ∧
      p.course_type = get_course_type info.typeId := by
  refine ⟨by simp [generate_cover, h2], ?_, ?_⟩
  · unfold generate_cover
    split
    next hc => exact absurd hc.1 h3
    · rw [h1]
      rw [gcAfterInfo_attr]
  · intro p hp
    unfold generate_cover at hp
    split at hp
    next hc => exact absurd hc.1 h3
    · rw [h1] at hp
      exact gcAfterInfo_params _ _ _ _ _ _ _ hp

/-- Witness for C10: a skipped call leaves the attribute set; the following
call for a different course and language clears it. -/
theorem c10_stale_attribute_leak_witness :
    generate_cover okEnv leakState "bash-basics" "en" false =
      (.ok true, leakState, none) ∧
    (generate_cover okEnv leakState "other-course" "zh" false).2.1.attr = none :=
  have h := c10_stale_attribute_leak okEnv okEnv leakState
    ⟨"Bash Basics", 0, ["en", "zh"]⟩ "bash-basics" "en" "other-course" "zh"
    rfl (by simp [leakState]) (by simp [leakState])
  ⟨h.1, h.2.1⟩

/-- Membership in the collected invalid set: exactly the aliases present in
the config document that were actually evaluated (not skipped), with
cleanup enabled, whose `generate_cover` returned `False`. -/
theorem mem_collectInvalid (ci sp ow : Bool) (ex : List String)
    (oc : String → Except String Bool) (cfg : List (String × VisualConfig))
    (a : String) :
    a ∈ collectInvalid ci sp ow ex oc cfg ↔
      (∃ c, (a, c) ∈ cfg) ∧ shouldSkip sp ow ex a = false ∧
        oc a = .ok false ∧ ci = true := by
  induction cfg with
  | nil => simp [collectInvalid]
  | cons hd tl ih =>
    obtain ⟨b, c⟩ := hd
    simp only [collectInvalid]
    by_cases hskip : shouldSkip sp ow ex b = true
    · rw [if_pos hskip, ih]
      constructor
      · rintro ⟨⟨c2, hc2⟩, h2, h3, h4⟩
        exact ⟨⟨c2, List.mem_cons_of_mem _ hc2⟩, h2, h3, h4⟩
      · rintro ⟨⟨c2, hc2⟩, h2, h3, h4⟩
        rcases List.mem_cons.1 hc2 with he | ht
        · injection he with hab hcc
          subst hab
          rw [h2] at hskip
          exact Bool.noConfusion hskip
        · exact ⟨⟨c2, ht⟩, h2, h3, h4⟩
    · have hskf : shouldSkip sp ow ex b = false := by
        revert hskip
        cases shouldSkip sp ow ex b <;> simp
      rw [if_neg hskip]
      rcases hob : oc b with e | bv
      · simp only [hob]
        rw [ih]
        constructor
        · rintro ⟨⟨c2, hc2⟩, h2, h3, h4⟩
          exact ⟨⟨c2, List.mem_cons_of_mem _ hc2⟩, h2, h3, h4⟩
        · rintro ⟨⟨c2, hc2⟩, h2, h3, h4⟩
          rcases List.mem_cons.1 hc2 with he | ht
          · injection he with hab hcc
            subst hab
            rw [h3] at hob
            exact Except.noConfusion hob
          · exact ⟨⟨c2, ht⟩, h2, h3, h4⟩
      · cases bv
        · simp only [hob]
          by_cases hci : ci = true
          · rw [if_pos hci, List.mem_cons, ih]
            constructor
            · rintro (rfl | ⟨⟨c2, hc2⟩, h2, h3, h4⟩)
              · exact ⟨⟨c, List.mem_cons_self _ _⟩, hskf, hob, hci⟩
              · exact ⟨⟨c2, List.mem_cons_of_mem _ hc2⟩, h2, h3, h4⟩
            · rintro ⟨⟨c2, hc2⟩, h2, h3, h4⟩
              rcases List.mem_cons.1 hc2 with he | ht
              · injection he with hab hcc
                exact Or.inl hab
              · exact Or.inr ⟨⟨c2, ht⟩, h2, h3, h4⟩
          · rw [if_neg hci, ih]
            constructor
            · rintro ⟨⟨c2, hc2⟩, h2, h3, h4⟩
              exact ⟨⟨c2, List.mem_cons_of_mem _ hc2⟩, h2, h3, h4⟩
            · rintro ⟨⟨c2, hc2⟩, h2, h3, h4⟩
              exact absurd h4 hci
        · simp only [hob]
          rw [ih]
          constructor
          · rintro ⟨⟨c2, hc2⟩, h2, h3, h4⟩
            exact ⟨⟨c2, List.mem_cons_of_mem _ hc2⟩, h2, h3, h4⟩
          · rintro ⟨⟨c2, hc2⟩, h2, h3, h4⟩
            rcases List.mem_cons.1 hc2 with he | ht
            · injection he with hab hcc
              subst hab
              rw [h3] at hob
              injection hob with hbv
              exact Bool.noConfusion hbv
            · exact ⟨⟨c2, ht⟩, h2, h3, h4⟩

/-- C6: with cleanup enabled, the set of keys removed from the config
document is exactly the set of evaluated course identifiers whose outcome
was course-does-not-exist (`generate_cover` returning `False`); an alias
whose processing raised a transient error is never in the removal set and
always survives in the document; and the cleanup performs at most one
rewrite of the document. -/
theorem c6_cleanup_safety (sp ow : Bool) (ex : List String)
    (oc : String → Except String Bool) (config : List (String × VisualConfig)) :
    (∀ a, a ∈ (batch_generate_covers_main true sp ow ex oc config).1 ↔
      (∃ c, (a, c) ∈ config) ∧ shouldSkip sp ow ex a = false ∧
        oc a = .ok false) ∧
    (∀ p, p ∈ (batch_generate_covers_main true sp ow ex oc config).2.1 ↔
      p ∈ config ∧ p.1 ∉ (batch_generate_covers_main true sp ow ex oc config).1) ∧
    (∀ a c e, (a, c) ∈ config → oc a = .error e →
      (a, c) ∈ (batch_generate_covers_main true sp ow ex oc config).2.1) ∧
    (batch_generate_covers_main true sp ow ex oc config).2.2 ≤ 1 := by
  have hinv : ∀ x, x ∈ collectInvalid true sp ow ex oc config ↔
      (∃ c, (x, c) ∈ config) ∧ shouldSkip sp ow ex x = false ∧
        oc x = .ok false := by
    intro x
    rw [mem_collectInvalid]
    simp
  have hmain : batch_generate_covers_main true sp ow ex oc config =
      (collectInvalid true sp ow ex oc config,
        if collectInvalid true sp ow ex oc config = [] then config
        else config.filter
          (fun p => !((collectInvalid true sp ow ex oc config).contains p.1)),
        if collectInvalid true sp ow ex oc config = [] then 0 else 1) := by
    unfold batch_generate_covers_main
    by_cases hempty : collectInvalid true sp ow ex oc config = [] <;>
      simp [hempty]
  have hiff : ∀ p, p ∈ (batch_generate_covers_main true sp ow ex oc config).2.1 ↔
      p ∈ config ∧ p.1 ∉ (batch_generate_covers_main true sp ow ex oc config).1 := by
    intro p
    rw [hmain]
    by_cases hempty : collectInvalid true sp ow ex oc config = []
    · simp [hempty]
    · simp [hempty, List.mem_filter, List.contains]
  refine ⟨fun a => by rw [hmain]; exact hinv a, hiff, ?_, ?_⟩
  · intro a c e hc he
    rw [hiff]
    refine ⟨hc, fun hmem => ?_⟩
    rw [hmain] at hmem
    rw [hinv a] at hmem
    rw [hmem.2.2] at he
    exact Except.noConfusion he
  · rw [hmain]
    by_cases hempty : collectInvalid true sp ow ex oc config = [] <;>
      simp [hempty]

/-- Witness for C6: a batch with one not-found course and one
transient-failing course removes exactly the not-found one in a single
rewrite. -/
theorem c6_cleanup_safety_witness :
    (batch_generate_covers_main true false false [] cleanupOutcome cleanupConfig).1 =
      ["ghost-course"] ∧
    ("flaky-course", storedCfg) ∈
      (batch_generate_covers_main true false false [] cleanupOutcome cleanupConfig).2.1 ∧
    (batch_generate_covers_main true false false [] cleanupOutcome cleanupConfig).2.2 ≤ 1 :=
  ⟨rfl,
    (c6_cleanup_safety false false [] cleanupOutcome cleanupConfig).2.2.1
      "flaky-course" storedCfg "connection reset" (by simp [cleanupConfig]) rfl,
    (c6_cleanup_safety false false [] cleanupOutcome cleanupConfig).2.2.2⟩

end CourseCover
